import Mathlib

/-
Verification of the audio-app-frontend client against its design notes.

The development shallowly embeds the two stateful modules of the
repository:

  * the audio library page (component AudioFilesPage): the audio file
    list, the handle map from fileName to object URL, the pending-fetch
    set, and the operations fetchAudioFiles, fetchAudioSource,
    handlePlayError, handleDelete and handleDownload;

  * the auth utility module together with the login page handler
    (handleLogin) and the home page auth check: session storage keys,
    the module-level auth and user caches, and the operations getToken,
    checkAuthStatus, validateTokenAsync, getCurrentUser and logout;

  * the upload page load listener of handleSubmit.

Conventions of the embedding.  Browser session storage values are
Option String (getItem returns null for a missing key).  JavaScript
object maps keyed by strings are association lists whose update and
delete operations keep keys unique.  Object URLs are numbered by a
counter nextUrl; creations are recorded in createdUrls (URLs installed
by fetchAudioSource, tagged with their fileName) and downloadUrls
(one-shot URLs made by handleDownload), and revocations in revokedUrls.
Each handler is modelled as an atomic state transformer: React state
updater functions are applied immediately, and the outcome of each
network request is an explicit argument of the operation.  Alerts and
issued stream requests are recorded in lists so that user-visible
errors and duplicate network requests are observable in the state.
-/

/-! ## JavaScript string helpers -/

/-- The JavaScript expression a || b for a possibly absent string a:
an absent value and the empty string are both falsy. -/
def jsStrOr (a : Option String) (b : String) : String :=
  match a with
  | some s => if s = "" then b else s
  | none => b

/-- Truthiness of a possibly absent string field. -/
def jsTruthyStr (a : Option String) : Bool :=
  match a with
  | some s => s != ""
  | none => false

/-- The regex replace stripping a trailing extension: a final dot
followed by one or more characters none of which is a dot or slash is
removed, as in the source transformation of server file names. -/
def stripExt (s : String) : String :=
  match (s.data.reverse.takeWhile (fun c => c != '.' && c != '/')),
        (s.data.reverse.drop ((s.data.reverse.takeWhile (fun c => c != '.' && c != '/')).length)) with
  | [], _ => s
  | _, '.' :: rest => String.mk rest.reverse
  | _, _ => s

/-- The replace of every underscore by a space. -/
def undToSpace (s : String) : String :=
  String.mk (s.data.map (fun c => if c = '_' then ' ' else c))

/-- The title displayed for a file name: extension stripped, then
underscores replaced by spaces. -/
def titleOf (s : String) : String :=
  undToSpace (stripExt s)

/-- fileName.includes('/') ? fileName.split('/').pop() : fileName -/
def actualFileName (fileName : String) : String :=
  if fileName.data.contains '/' then
    String.mk (fileName.data.reverse.takeWhile (fun c => c != '/')).reverse
  else fileName

/-! ## Association lists standing for JavaScript object maps -/

/-- Lookup of a key, as reading obj[k]. -/
def mapGet (m : List (String × Nat)) (k : String) : Option Nat :=
  (m.find? (fun p => p.1 == k)).map (fun p => p.2)

/-- Installing obj[k] = v; keys stay unique. -/
def mapSet (m : List (String × Nat)) (k : String) (v : Nat) : List (String × Nat) :=
  (k, v) :: m.filter (fun p => p.1 != k)

/-- The statement delete obj[k]. -/
def mapDel (m : List (String × Nat)) (k : String) : List (String × Nat) :=
  m.filter (fun p => p.1 != k)

theorem mapGet_eq_some_mem {m : List (String × Nat)} {k : String} {v : Nat}
    (h : mapGet m k = some v) : (k, v) ∈ m := by
  unfold mapGet at h
  cases hf : m.find? (fun p => p.1 == k) with
  | none => rw [hf] at h; cases h
  | some p =>
    rw [hf] at h
    have hm := List.mem_of_find?_eq_some hf
    have hp := List.find?_some hf
    obtain ⟨a, b⟩ := p
    simp at h hp
    rw [hp] at hm
    rw [h] at hm
    exact hm

theorem find?_key_filter {m : List (String × Nat)} {k k2 : String} (h : k2 ≠ k) :
    (m.filter (fun p => p.1 != k)).find? (fun p => p.1 == k2) =
      m.find? (fun p => p.1 == k2) := by
  induction m with
  | nil => rfl
  | cons a t ih =>
    by_cases ha : a.1 = k
    · have h1 : (a.1 != k) = false := by simp [ha]
      have h2 : (a.1 == k2) = false := by simp [ha]; exact fun hh => h hh.symm
      simp [List.filter_cons, h1, List.find?_cons, h2, ih]
    · have h1 : (a.1 != k) = true := by simp [ha]
      by_cases hk2 : a.1 = k2
      · have h2 : (a.1 == k2) = true := by simp [hk2]
        simp [List.filter_cons, h1, List.find?_cons, h2]
      · have h2 : (a.1 == k2) = false := by simp [hk2]
        simp [List.filter_cons, h1, List.find?_cons, h2, ih]

theorem mapGet_mapSet_self (m : List (String × Nat)) (k : String) (v : Nat) :
    mapGet (mapSet m k v) k = some v := by
  simp [mapGet, mapSet, List.find?_cons]

theorem mapGet_mapSet_ne (m : List (String × Nat)) (k : String) (v : Nat)
    (k2 : String) (h : k2 ≠ k) : mapGet (mapSet m k v) k2 = mapGet m k2 := by
  unfold mapGet mapSet
  have h2 : (k == k2) = false := by simp; exact fun hh => h hh.symm
  rw [List.find?_cons]
  simp only [h2]
  rw [find?_key_filter h]

theorem mapGet_mapDel_self (m : List (String × Nat)) (k : String) :
    mapGet (mapDel m k) k = none := by
  unfold mapGet mapDel
  have : (m.filter (fun p => p.1 != k)).find? (fun p => p.1 == k) = none := by
    rw [List.find?_eq_none]
    intro p hp
    have := (List.mem_filter.mp hp).2
    simp at this ⊢
    exact this
  rw [this]
  rfl

theorem mapGet_mapDel_ne (m : List (String × Nat)) (k : String)
    (k2 : String) (h : k2 ≠ k) : mapGet (mapDel m k) k2 = mapGet m k2 := by
  unfold mapGet mapDel
  rw [find?_key_filter h]

/-! ## Data model of the audio library page -/

/-- An entry of the in-memory audio list, as produced by
fetchAudioFiles from the server response. -/
structure AudioFile where
  id : Nat
  title : String
  description : String
  artist : String
  audio_category : String
  duration : String
  fileName : String
  filePath : String
deriving DecidableEq

/-- Outcome of a single authenticated GET for binary audio: the
request succeeds end to end, it yields a non-ok response, the
thirty-second guard aborts it, the transport fails, or the response is
ok but reading the body fails. -/
inductive FetchOutcome where
  | success
  | httpError (status : Nat) (statusText : String)
  | abortTimeout
  | networkError (msg : String)
  | blobError (msg : String)
deriving DecidableEq

/-- Outcome of the DELETE request of handleDelete.  An ok response
carries the optional error field of its parsed body (a body that does
not parse becomes an empty object, hence an absent field). -/
inductive DeleteOutcome where
  | ok (errorField : Option String)
  | notOk (status : Nat) (statusText : String)
  | networkError (msg : String)
deriving DecidableEq

/-- One element of the files array of the list-files response: a plain
file name, a metadata record with optional fields, or any other value. -/
inductive ListedFile where
  | str (name : String)
  | obj (fileName title audio_description artist audio_category
         audio_duration filePath : Option String)
  | other
deriving DecidableEq

/-- Outcome of the list-files request: a well-formed response, an ok
response without a files array, a non-ok response, or a transport
failure. -/
inductive ListOutcome where
  | ok (files : List ListedFile)
  | okNoFilesArray
  | notOk (statusText : String)
  | networkError (msg : String)
deriving DecidableEq

/-- The state of the audio library page.  The component state fields
audioFiles, loading, error, expandedTrack, audioSources, fetchingAudio
and pendingFetches mirror the useState hooks; nextUrl, createdUrls,
downloadUrls and revokedUrls account for object URL creation and
revocation; streamRequests, alerts and routedTo record issued stream
requests, alert calls and router pushes. -/
structure AudioPageState where
  audioFiles : List AudioFile
  loading : Bool
  error : Option String
  expandedTrack : Option Nat
  audioSources : List (String × Nat)
  fetchingAudio : Bool
  pendingFetches : List String
  nextUrl : Nat
  createdUrls : List (String × Nat)
  downloadUrls : List Nat
  revokedUrls : List Nat
  streamRequests : List String
  alerts : List String
  routedTo : Option String
deriving DecidableEq

/-- The page state at mount. -/
def initialAudioState : AudioPageState :=
  { audioFiles := [], loading := true, error := none, expandedTrack := none,
    audioSources := [], fetchingAudio := false, pendingFetches := [],
    nextUrl := 0, createdUrls := [], downloadUrls := [], revokedUrls := [],
    streamRequests := [], alerts := [], routedTo := none }

/-! ## fetchAudioFiles -/

/-- The samples installed by the catch branch of fetchAudioFiles. -/
def fallbackFiles : List AudioFile :=
  [ { id := 1, title := "Trombone Duet", description := "", artist := "John Doe",
      audio_category := "", duration := "3:45", fileName := "trombone_duet.mp3", filePath := "" },
    { id := 2, title := "Piano Sonata", description := "", artist := "Jane Smith",
      audio_category := "", duration := "5:20", fileName := "piano_sonata.mp3", filePath := "" },
    { id := 3, title := "Drum Solo", description := "", artist := "Mike Johnson",
      audio_category := "", duration := "2:15", fileName := "drum_solo.mp3", filePath := "" },
    { id := 4, title := "Ambient Sounds", description := "", artist := "Sarah Williams",
      audio_category := "", duration := "4:30", fileName := "ambient_sounds.mp3", filePath := "" },
    { id := 5, title := "Electronic Beat", description := "", artist := "David Brown",
      audio_category := "", duration := "3:10", fileName := "electronic_beat.mp3", filePath := "" } ]

/-- The per-element normalization of the files array (the map callback
of fetchAudioFiles), at position index. -/
def formatFile (index : Nat) : ListedFile → AudioFile
  | ListedFile.str file =>
    { id := index + 1, title := titleOf file, description := "",
      artist := "Unknown Artist", audio_category := "", duration := "--:--",
      fileName := file, filePath := "" }
  | ListedFile.obj fileName title audio_description artist audio_category
      audio_duration filePath =>
    { id := index + 1,
      title := titleOf (jsStrOr fileName (jsStrOr title ("Track " ++ toString (index + 1)))),
      description := jsStrOr audio_description "",
      artist := jsStrOr artist ("Unknown Artist"),
      audio_category := jsStrOr audio_category "",
      duration := jsStrOr audio_duration ("--:--"),
      fileName := jsStrOr fileName ("track_" ++ toString (index + 1) ++ ".mp3"),
      filePath := jsStrOr filePath "" }
  | ListedFile.other =>
    { id := index + 1, title := "Track " ++ toString (index + 1), description := "",
      artist := "Unknown Artist", audio_category := "", duration := "--:--",
      fileName := "track_" ++ toString (index + 1) ++ ".mp3", filePath := "" }

/-- The indexed map over the files array. -/
def formatFiles (index : Nat) : List ListedFile → List AudioFile
  | [] => []
  | f :: rest => formatFile index f :: formatFiles (index + 1) rest

/-- fetchAudioFiles: on a well-formed response the formatted list is
installed; on a non-ok response the router pushes the login route and
the thrown error is caught; every caught error records its message and
installs the fallback samples; the finally block clears loading.  The
success branch leaves any earlier error message in place, exactly as
the source does. -/
def fetchAudioFiles (s : AudioPageState) (o : ListOutcome) : AudioPageState :=
  match o with
  | ListOutcome.ok files =>
    { s with audioFiles := formatFiles 0 files, loading := false }
  | ListOutcome.okNoFilesArray =>
    { s with error := some ("Server response is not in the expected format"),
             audioFiles := fallbackFiles, loading := false }
  | ListOutcome.notOk statusText =>
    { s with routedTo := some ("/login"),
             error := some ("Error fetching audio files: " ++ statusText),
             audioFiles := fallbackFiles, loading := false }
  | ListOutcome.networkError msg =>
    { s with error := some msg, audioFiles := fallbackFiles, loading := false }

/-! ## fetchAudioSource and its steps -/

/-- The opening of a fetch once the duplicate guard has passed:
fetchingAudio is set, the fileName is added to pendingFetches, and the
stream request goes out. -/
def pendingAdd (s : AudioPageState) (f : String) : AudioPageState :=
  { s with fetchingAudio := true,
           pendingFetches := f :: s.pendingFetches,
           streamRequests := actualFileName f :: s.streamRequests }

/-- The cleanup before creating a new blob URL: if the map holds a
handle for the fileName, that URL is revoked (the map entry itself is
not removed here). -/
def revokeCurrent (s : AudioPageState) (f : String) : AudioPageState :=
  match mapGet s.audioSources f with
  | some old => { s with revokedUrls := old :: s.revokedUrls }
  | none => s

/-- Creation of the object URL for the fetched blob and its
installation in the handle map. -/
def installUrl (s : AudioPageState) (f : String) : Option Nat × AudioPageState :=
  (some s.nextUrl,
   { s with nextUrl := s.nextUrl + 1,
            createdUrls := (f, s.nextUrl) :: s.createdUrls,
            audioSources := mapSet s.audioSources f s.nextUrl })

/-- The finally block of fetchAudioSource: fetchingAudio is reset and
the fileName is removed from pendingFetches, on every exit path. -/
def fetchCleanup (s : AudioPageState) (f : String) : AudioPageState :=
  { s with fetchingAudio := false,
           pendingFetches := s.pendingFetches.filter (fun g => g != f) }

/-- fetchAudioSource.  When the fileName is already pending the call
returns null at once, yet the finally block still runs, removing the
fileName from pendingFetches.  Otherwise the request is issued; on
success any previous handle is revoked before the new URL is installed
and returned; an abort is silent; other failures alert; the finally
block always runs last. -/
def fetchAudioSource (s : AudioPageState) (f : String) (o : FetchOutcome) :
    Option Nat × AudioPageState :=
  if f ∈ s.pendingFetches then
    (none, fetchCleanup s f)
  else
    match o with
    | FetchOutcome.success =>
      ((installUrl (revokeCurrent (pendingAdd s f) f) f).1,
       fetchCleanup (installUrl (revokeCurrent (pendingAdd s f) f) f).2 f)
    | FetchOutcome.httpError status statusText =>
      (none, fetchCleanup
        { pendingAdd s f with
          alerts := ("Failed to load audio: Error streaming audio: " ++
                     toString status ++ " " ++ statusText) :: s.alerts } f)
    | FetchOutcome.abortTimeout =>
      (none, fetchCleanup (pendingAdd s f) f)
    | FetchOutcome.networkError msg =>
      (none, fetchCleanup
        { pendingAdd s f with
          alerts := ("Failed to load audio: " ++ msg) :: s.alerts } f)
    | FetchOutcome.blobError msg =>
      (none, fetchCleanup
        { revokeCurrent (pendingAdd s f) f with
          alerts := ("Failed to load audio: " ++ msg) :: s.alerts } f)

/-! ## handlePlayError -/

/-- The cleanup of a failed source in handlePlayError and
handleDelete: revoke the existing blob URL and remove its map entry. -/
def revokeDrop (s : AudioPageState) (f : String) : AudioPageState :=
  match mapGet s.audioSources f with
  | some old =>
    { s with revokedUrls := old :: s.revokedUrls,
             audioSources := mapDel s.audioSources f }
  | none => s

/-- handlePlayError: when no source is held or the element reports an
error, any existing handle is revoked and dropped; if the file is
already pending the function returns without refetching, else it calls
fetchAudioSource again. -/
def handlePlayError (s : AudioPageState) (f : String) (targetError : Bool)
    (retry : FetchOutcome) : AudioPageState :=
  if (mapGet s.audioSources f).isNone || targetError then
    if f ∈ s.pendingFetches then revokeDrop s f
    else (fetchAudioSource (revokeDrop s f) f retry).2
  else s

/-! ## handleDelete -/

/-- The guard deciding whether the deleted file was the expanded
track, read from the pre-update component state exactly as the source
closure does. -/
def expandedMatches (s : AudioPageState) (f : String) : Bool :=
  match s.expandedTrack with
  | some tid =>
    tid != 0 &&
    ((s.audioFiles.find? (fun file => file.id == tid)).map (fun file => file.fileName)
      == some f)
  | none => false

/-- The success branch of handleDelete: the descriptor is filtered out
of the list, any handle is revoked and dropped, the track collapses if
it was the expanded one, a success alert shows, and loading resets. -/
def deleteSuccessState (s : AudioPageState) (f : String) : AudioPageState :=
  { revokeDrop { s with audioFiles := s.audioFiles.filter (fun file => file.fileName != f) } f with
    expandedTrack := if expandedMatches s f then none else s.expandedTrack,
    alerts := ("Successfully deleted " ++ actualFileName f) :: s.alerts,
    loading := false }

/-- handleDelete.  A non-ok response, a transport failure, or an ok
response whose body carries a truthy error field all throw into the
catch branch, which alerts and leaves the list, the handle map and the
expanded track untouched. -/
def handleDelete (s : AudioPageState) (f : String) (o : DeleteOutcome) : AudioPageState :=
  match o with
  | DeleteOutcome.ok err =>
    if jsTruthyStr err then
      { s with alerts := ("Failed to delete audio: " ++ jsStrOr err "") :: s.alerts,
               loading := false }
    else deleteSuccessState s f
  | DeleteOutcome.notOk status statusText =>
    { s with alerts := ("Failed to delete audio: Error deleting audio: " ++
                        toString status ++ " " ++ statusText) :: s.alerts,
             loading := false }
  | DeleteOutcome.networkError msg =>
    { s with alerts := ("Failed to delete audio: " ++ msg) :: s.alerts,
             loading := false }

/-! ## handleDownload -/

/-- handleDownload: on success the blob becomes a fresh object URL
used once by a transient anchor; the URL is neither put in the handle
map nor revoked, and no component state field changes.  Failures alert
with the thrown message (the abort branch carries the AbortError
message of the runtime). -/
def handleDownload (s : AudioPageState) (fileName title : String)
    (o : FetchOutcome) : AudioPageState :=
  match o with
  | FetchOutcome.success =>
    { s with nextUrl := s.nextUrl + 1, downloadUrls := s.nextUrl :: s.downloadUrls }
  | FetchOutcome.httpError status statusText =>
    { s with alerts := ("Failed to download audio: Error downloading audio: " ++
                        toString status ++ " " ++ statusText) :: s.alerts }
  | FetchOutcome.abortTimeout =>
    { s with alerts := ("Failed to download audio: signal is aborted") :: s.alerts }
  | FetchOutcome.networkError msg =>
    { s with alerts := ("Failed to download audio: " ++ msg) :: s.alerts }
  | FetchOutcome.blobError msg =>
    { s with alerts := ("Failed to download audio: " ++ msg) :: s.alerts }

/-! ## Operation sequences over the page state -/

/-- One user-visible operation on the audio page. -/
inductive AudioOp where
  | fetch (fileName : String) (o : FetchOutcome)
  | playError (fileName : String) (targetError : Bool) (retry : FetchOutcome)
  | delete (fileName : String) (o : DeleteOutcome)
  | download (fileName title : String) (o : FetchOutcome)
deriving DecidableEq

def applyOp (s : AudioPageState) : AudioOp → AudioPageState
  | AudioOp.fetch f o => (fetchAudioSource s f o).2
  | AudioOp.playError f e r => handlePlayError s f e r
  | AudioOp.delete f o => handleDelete s f o
  | AudioOp.download f t o => handleDownload s f t o

def runOps (s : AudioPageState) (ops : List AudioOp) : AudioPageState :=
  List.foldl applyOp s ops


/-! ## The handle-map invariant -/

/-- The bookkeeping invariant of the page state: every URL number in
use is below the counter, created URLs are pairwise distinct, every
handle-map entry is a created pair, and every created URL that is not
revoked is exactly the handle its fileName currently maps to. -/
structure HandleInv (s : AudioPageState) : Prop where
  created_lt : ∀ p ∈ s.createdUrls, p.2 < s.nextUrl
  revoked_lt : ∀ u ∈ s.revokedUrls, u < s.nextUrl
  created_nodup : (s.createdUrls.map (fun p => p.2)).Nodup
  sources_created : ∀ p ∈ s.audioSources, p ∈ s.createdUrls
  live_mapped : ∀ p ∈ s.createdUrls, p.2 ∉ s.revokedUrls →
    mapGet s.audioSources p.1 = some p.2

/-- Rebuilding the invariant for a state whose URL accounting fields
agree with those of an invariant state. -/
theorem inv_of_same_handles {s t : AudioPageState} (h : HandleInv s)
    (h1 : t.createdUrls = s.createdUrls) (h2 : t.revokedUrls = s.revokedUrls)
    (h3 : t.nextUrl = s.nextUrl) (h4 : t.audioSources = s.audioSources) : HandleInv t := by
  refine ⟨?_, ?_, ?_, ?_, ?_⟩
  · rw [h1, h3]; exact h.created_lt
  · rw [h2, h3]; exact h.revoked_lt
  · rw [h1]; exact h.created_nodup
  · rw [h4, h1]; exact h.sources_created
  · rw [h1, h2, h4]; exact h.live_mapped

theorem inv_revokeCurrent (s : AudioPageState) (f : String) (h : HandleInv s) :
    HandleInv (revokeCurrent s f) := by
  unfold revokeCurrent
  cases hm : mapGet s.audioSources f with
  | none => exact h
  | some old =>
    have hmem : (f, old) ∈ s.createdUrls := h.sources_created _ (mapGet_eq_some_mem hm)
    refine ⟨h.created_lt, ?_, h.created_nodup, h.sources_created, ?_⟩
    · intro v hv
      rcases List.mem_cons.mp hv with h1 | h1
      · rw [h1]; exact h.created_lt _ hmem
      · exact h.revoked_lt v h1
    · intro p hp hr
      exact h.live_mapped p hp (fun hx => hr (List.mem_cons_of_mem _ hx))

/-- After revokeCurrent, every created URL for the fileName is revoked. -/
theorem hdead_revokeCurrent (s : AudioPageState) (f : String) (h : HandleInv s) :
    ∀ p ∈ (revokeCurrent s f).createdUrls, p.1 = f →
      p.2 ∈ (revokeCurrent s f).revokedUrls := by
  unfold revokeCurrent
  cases hm : mapGet s.audioSources f with
  | none =>
    intro p hp hpf
    by_contra hr
    have hl := h.live_mapped p hp hr
    rw [hpf, hm] at hl
    cases hl
  | some old =>
    intro p hp hpf
    by_cases hr : p.2 ∈ s.revokedUrls
    · exact List.mem_cons_of_mem _ hr
    · have hl := h.live_mapped p hp hr
      rw [hpf, hm] at hl
      have : old = p.2 := by injection hl
      rw [← this]
      exact List.mem_cons_self _ _

theorem inv_installUrl (s : AudioPageState) (f : String) (h : HandleInv s)
    (hdead : ∀ p ∈ s.createdUrls, p.1 = f → p.2 ∈ s.revokedUrls) :
    HandleInv (installUrl s f).2 := by
  refine ⟨?_, ?_, ?_, ?_, ?_⟩
  · intro p hp
    rcases List.mem_cons.mp hp with h1 | h1
    · rw [h1]; exact Nat.lt_succ_self _
    · exact Nat.lt_succ_of_lt (h.created_lt _ h1)
  · intro u hu
    exact Nat.lt_succ_of_lt (h.revoked_lt u hu)
  · show ((((f, s.nextUrl)) :: s.createdUrls).map (fun p => p.2)).Nodup
    rw [List.map_cons]
    refine List.nodup_cons.mpr ⟨?_, h.created_nodup⟩
    intro hx
    rcases List.mem_map.mp hx with ⟨p, hp, hpe⟩
    exact absurd (hpe ▸ h.created_lt p hp) (Nat.lt_irrefl _)
  · intro p hp
    rcases List.mem_cons.mp hp with h1 | h1
    · rw [h1]; exact List.mem_cons_self _ _
    · exact List.mem_cons_of_mem _ (h.sources_created _ (List.mem_of_mem_filter h1))
  · intro p hp hr
    rcases List.mem_cons.mp hp with h1 | h1
    · rw [h1]
      exact mapGet_mapSet_self _ _ _
    · by_cases hpf : p.1 = f
      · exact absurd (hdead p h1 hpf) hr
      · show mapGet (mapSet s.audioSources f s.nextUrl) p.1 = some p.2
        rw [mapGet_mapSet_ne _ _ _ _ hpf]
        exact h.live_mapped p h1 hr

theorem inv_revokeDrop (s : AudioPageState) (f : String) (h : HandleInv s) :
    HandleInv (revokeDrop s f) := by
  unfold revokeDrop
  cases hm : mapGet s.audioSources f with
  | none => exact h
  | some old =>
    have hmem : (f, old) ∈ s.createdUrls := h.sources_created _ (mapGet_eq_some_mem hm)
    refine ⟨h.created_lt, ?_, h.created_nodup, ?_, ?_⟩
    · intro v hv
      rcases List.mem_cons.mp hv with h1 | h1
      · rw [h1]; exact h.created_lt _ hmem
      · exact h.revoked_lt v h1
    · intro p hp
      exact h.sources_created _ (List.mem_of_mem_filter hp)
    · intro p hp hr
      have hr0 : p.2 ∉ s.revokedUrls := fun hx => hr (List.mem_cons_of_mem _ hx)
      have hl := h.live_mapped p hp hr0
      by_cases hpf : p.1 = f
      · rw [hpf, hm] at hl
        have : old = p.2 := by injection hl
        exact absurd (this ▸ List.mem_cons_self old s.revokedUrls) hr
      · show mapGet (mapDel s.audioSources f) p.1 = some p.2
        rw [mapGet_mapDel_ne _ _ _ hpf]
        exact hl

theorem inv_pendingAdd (s : AudioPageState) (f : String) (h : HandleInv s) :
    HandleInv (pendingAdd s f) :=
  inv_of_same_handles h rfl rfl rfl rfl

theorem inv_fetchCleanup (s : AudioPageState) (f : String) (h : HandleInv s) :
    HandleInv (fetchCleanup s f) :=
  inv_of_same_handles h rfl rfl rfl rfl

theorem inv_fetchAudioSource (s : AudioPageState) (f : String) (o : FetchOutcome)
    (h : HandleInv s) : HandleInv (fetchAudioSource s f o).2 := by
  unfold fetchAudioSource
  by_cases hg : f ∈ s.pendingFetches
  · rw [if_pos hg]
    exact inv_fetchCleanup _ _ h
  · rw [if_neg hg]
    cases o with
    | success =>
      exact inv_fetchCleanup _ _
        (inv_installUrl _ _ (inv_revokeCurrent _ _ (inv_pendingAdd _ _ h))
          (hdead_revokeCurrent _ _ (inv_pendingAdd _ _ h)))
    | httpError status statusText =>
      exact inv_fetchCleanup _ _ (inv_of_same_handles (inv_pendingAdd s f h) rfl rfl rfl rfl)
    | abortTimeout =>
      exact inv_fetchCleanup _ _ (inv_pendingAdd _ _ h)
    | networkError msg =>
      exact inv_fetchCleanup _ _ (inv_of_same_handles (inv_pendingAdd s f h) rfl rfl rfl rfl)
    | blobError msg =>
      exact inv_fetchCleanup _ _
        (inv_of_same_handles (inv_revokeCurrent _ f (inv_pendingAdd s f h)) rfl rfl rfl rfl)

theorem inv_handlePlayError (s : AudioPageState) (f : String) (e : Bool)
    (r : FetchOutcome) (h : HandleInv s) : HandleInv (handlePlayError s f e r) := by
  unfold handlePlayError
  by_cases hc : ((mapGet s.audioSources f).isNone || e) = true
  · rw [if_pos hc]
    by_cases hg : f ∈ s.pendingFetches
    · rw [if_pos hg]; exact inv_revokeDrop _ _ h
    · rw [if_neg hg]; exact inv_fetchAudioSource _ _ _ (inv_revokeDrop _ _ h)
  · rw [if_neg hc]; exact h

theorem inv_handleDelete (s : AudioPageState) (f : String) (o : DeleteOutcome)
    (h : HandleInv s) : HandleInv (handleDelete s f o) := by
  cases o with
  | ok err =>
    by_cases he : jsTruthyStr err = true
    · simp only [handleDelete, he, if_true]
      exact inv_of_same_handles h rfl rfl rfl rfl
    · simp only [handleDelete, if_neg he]
      unfold deleteSuccessState
      exact inv_of_same_handles
        (inv_revokeDrop { s with audioFiles := s.audioFiles.filter (fun file => file.fileName != f) } f
          (inv_of_same_handles h rfl rfl rfl rfl)) rfl rfl rfl rfl
  | notOk status statusText => exact inv_of_same_handles h rfl rfl rfl rfl
  | networkError msg => exact inv_of_same_handles h rfl rfl rfl rfl

theorem inv_handleDownload (s : AudioPageState) (f t : String) (o : FetchOutcome)
    (h : HandleInv s) : HandleInv (handleDownload s f t o) := by
  cases o with
  | success =>
    refine ⟨?_, ?_, h.created_nodup, h.sources_created, h.live_mapped⟩
    · intro p hp; exact Nat.lt_succ_of_lt (h.created_lt p hp)
    · intro u hu; exact Nat.lt_succ_of_lt (h.revoked_lt u hu)
  | httpError status statusText => exact inv_of_same_handles h rfl rfl rfl rfl
  | abortTimeout => exact inv_of_same_handles h rfl rfl rfl rfl
  | networkError msg => exact inv_of_same_handles h rfl rfl rfl rfl
  | blobError msg => exact inv_of_same_handles h rfl rfl rfl rfl

theorem inv_applyOp (s : AudioPageState) (op : AudioOp) (h : HandleInv s) :
    HandleInv (applyOp s op) := by
  cases op with
  | fetch f o => exact inv_fetchAudioSource s f o h
  | playError f e r => exact inv_handlePlayError s f e r h
  | delete f o => exact inv_handleDelete s f o h
  | download f t o => exact inv_handleDownload s f t o h

theorem inv_runOps (s : AudioPageState) (ops : List AudioOp) (h : HandleInv s) :
    HandleInv (runOps s ops) := by
  induction ops generalizing s with
  | nil => exact h
  | cons op rest ih => exact ih _ (inv_applyOp s op h)

/-! ## At most one live handle per fileName -/

/-- The URLs created by fetchAudioSource for a fileName that have not
been revoked. -/
def liveUrlsFor (s : AudioPageState) (f : String) : List Nat :=
  (s.createdUrls.filter
    (fun p => p.1 == f && !(s.revokedUrls.contains p.2))).map (fun p => p.2)

theorem length_le_one_of_all_eq {l : List Nat} {u : Nat} (hn : l.Nodup)
    (h : ∀ x ∈ l, x = u) : l.length ≤ 1 := by
  match l with
  | [] => exact Nat.zero_le 1
  | [a] => exact Nat.le_refl 1
  | a :: b :: t =>
    have ha := h a (List.mem_cons_self _ _)
    have hb := h b (List.mem_cons_of_mem _ (List.mem_cons_self _ _))
    have := (List.nodup_cons.mp hn).1
    exact absurd (hb.trans ha.symm ▸ List.mem_cons_self b t) this

theorem atMostOne_of_inv (s : AudioPageState) (f : String) (h : HandleInv s) :
    (liveUrlsFor s f).length ≤ 1 := by
  have hsub : (liveUrlsFor s f).Sublist (s.createdUrls.map (fun p => p.2)) := by
    unfold liveUrlsFor
    exact List.Sublist.map _ (List.filter_sublist _)
  have hnodup : (liveUrlsFor s f).Nodup :=
    List.Nodup.sublist hsub h.created_nodup
  have hmem : ∀ x ∈ liveUrlsFor s f, mapGet s.audioSources f = some x := by
    intro x hx
    unfold liveUrlsFor at hx
    rcases List.mem_map.mp hx with ⟨p, hp, hpe⟩
    have hf := List.mem_filter.mp hp
    have hp1 : p.1 = f := by
      have := hf.2
      simp at this
      exact this.1
    have hp2 : p.2 ∉ s.revokedUrls := by
      have := hf.2
      simp at this
      exact this.2
    rw [← hpe, ← hp1]
    exact h.live_mapped p hf.1 hp2
  cases hval : mapGet s.audioSources f with
  | none =>
    cases hl : liveUrlsFor s f with
    | nil => exact Nat.zero_le 1
    | cons x rest =>
      have := hmem x (by rw [hl]; exact List.mem_cons_self x rest)
      rw [hval] at this
      cases this
  | some w =>
    refine length_le_one_of_all_eq (u := w) hnodup ?_
    intro x hx
    have := hmem x hx
    rw [hval] at this
    injection this with this
    exact this.symm

/-! ## Data model of the auth module -/

/-- The current-user record returned by the backend; only the username
field is read by the client. -/
structure User where
  username : Option String
deriving DecidableEq

/-- Outcome of a GET of the current-user endpoint. -/
inductive NetResponse where
  | ok (user : User)
  | okBadJson
  | notOk (status : Nat) (bodyText : String)
  | networkError
deriving DecidableEq

/-- Outcome of the POST of the login endpoint: an ok response carries
the access token, a non-ok response carries its status and the
optional detail field of its parsed body (absent when the body does
not parse), and the transport may fail. -/
inductive LoginResponse where
  | ok (access_token : String)
  | notOk (status : Nat) (detail : Option String)
  | networkError
deriving DecidableEq

/-- The session and module-level state of the auth layer: the four
session storage keys, the module variables lastAuthCheck, userCache
and lastUserFetch, and counters observing dispatched login and logout
events and issued requests to the current-user endpoint. -/
structure AuthState where
  token : Option String
  isAuthenticated : Option String
  username : Option String
  authDispatchedEvent : Option String
  lastAuthCheck : Nat
  userCache : Option User
  lastUserFetch : Nat
  loginEvents : Nat
  logoutEvents : Nat
  networkCalls : Nat
deriving DecidableEq

/-- The state of a fresh browser session. -/
def initialAuthState : AuthState :=
  { token := none, isAuthenticated := none, username := none,
    authDispatchedEvent := none, lastAuthCheck := 0, userCache := none,
    lastUserFetch := 0, loginEvents := 0, logoutEvents := 0, networkCalls := 0 }

/-- getToken: sessionStorage.getItem returns null for a missing key,
and the source coerces through || null, making an empty stored token
indistinguishable from an absent one. -/
def getToken (s : AuthState) : Option String :=
  match s.token with
  | some t => if t = "" then none else some t
  | none => none

/-- logout: the four storage keys are removed, the module caches and
timestamps reset, and a logout event is dispatched. -/
def logout (s : AuthState) : AuthState :=
  { s with token := none, isAuthenticated := none, username := none,
           authDispatchedEvent := none, lastAuthCheck := 0, userCache := none,
           lastUserFetch := 0, logoutEvents := s.logoutEvents + 1 }

/-- validateTokenAsync at time now, with the response of its GET of
the current-user endpoint.  An ok response marks the session
authenticated, stores the username when the record carries a truthy
one, refreshes the user cache, and dispatches the login event exactly
when the one-shot flag was not yet the string true.  A non-ok response
clears the four storage keys and the user cache.  A transport or parse
failure clears the user cache only.  Every path has already bumped
lastAuthCheck and issued one request. -/
def validateTokenAsync (s : AuthState) (now : Nat) (resp : NetResponse) :
    Bool × AuthState :=
  match resp with
  | NetResponse.ok userData =>
    (true,
     { s with lastAuthCheck := now, networkCalls := s.networkCalls + 1,
              isAuthenticated := some ("true"),
              username := (match userData.username with
                           | some u => if u = "" then s.username else some u
                           | none => s.username),
              userCache := some userData, lastUserFetch := now,
              authDispatchedEvent := some ("true"),
              loginEvents := (if s.authDispatchedEvent = some ("true")
                              then s.loginEvents else s.loginEvents + 1) })
  | NetResponse.okBadJson =>
    (false, { s with lastAuthCheck := now, networkCalls := s.networkCalls + 1,
                     userCache := none })
  | NetResponse.notOk status bodyText =>
    (false, { s with lastAuthCheck := now, networkCalls := s.networkCalls + 1,
                     isAuthenticated := none, username := none, token := none,
                     authDispatchedEvent := none, userCache := none })
  | NetResponse.networkError =>
    (false, { s with lastAuthCheck := now, networkCalls := s.networkCalls + 1,
                     userCache := none })

/-- checkAuthStatus at time now.  With no token it fails fast,
removing the isAuthenticated and username keys.  With a stored
authenticated flag it returns true, using the cached verification when
the sixty-second window has not elapsed and otherwise firing
validateTokenAsync in the background.  Without a stored flag it
returns the result of a full verification. -/
def checkAuthStatus (s : AuthState) (now : Nat) (resp : NetResponse) :
    Bool × AuthState :=
  match getToken s with
  | none => (false, { s with isAuthenticated := none, username := none })
  | some _ =>
    if s.isAuthenticated = some ("true") then
      if now - s.lastAuthCheck < 60000 then (true, s)
      else (true, (validateTokenAsync s now resp).2)
    else validateTokenAsync s now resp

/-- getCurrentUser at time now.  No token yields absent with no call.
A failing auth check yields absent.  A fresh user cache is returned
unless forceRefresh is set.  Otherwise the current-user endpoint is
queried: ok refreshes the cache and returns the record; non-ok clears
the cache and, on 401, performs a full logout; a transport or parse
failure is caught and returns absent without touching the cache. -/
def getCurrentUser (s : AuthState) (now : Nat) (forceRefresh : Bool)
    (authResp userResp : NetResponse) : Option User × AuthState :=
  match getToken s with
  | none => (none, s)
  | some _ =>
    match checkAuthStatus s now authResp with
    | (false, s1) => (none, s1)
    | (true, s1) =>
      if forceRefresh = false ∧ s1.userCache.isSome = true ∧
         now - s1.lastUserFetch < 300000 then
        (s1.userCache, s1)
      else
        match userResp with
        | NetResponse.ok userData =>
          (some userData,
           { s1 with networkCalls := s1.networkCalls + 1,
                     userCache := some userData, lastUserFetch := now })
        | NetResponse.okBadJson =>
          (none, { s1 with networkCalls := s1.networkCalls + 1 })
        | NetResponse.notOk status bodyText =>
          if status = 401 then
            (none, logout { s1 with networkCalls := s1.networkCalls + 1,
                                    userCache := none })
          else
            (none, { s1 with networkCalls := s1.networkCalls + 1,
                             userCache := none })
        | NetResponse.networkError =>
          (none, { s1 with networkCalls := s1.networkCalls + 1 })

/-- The synchronous isAuthenticated check: a truthy token and the
stored flag equal to the string true. -/
def isAuthenticatedSync (s : AuthState) : Bool :=
  (getToken s).isSome && (s.isAuthenticated == some ("true"))

/-- Result of the login page handler: the new auth state, the inline
error message if any, and the route pushed if any. -/
structure LoginResult where
  state : AuthState
  errorMsg : Option String
  routedTo : Option String
deriving DecidableEq

/-- handleLogin of the login page.  Empty inputs fail locally before
any request.  An ok response stores the token, the authenticated flag
and the username, dispatches a login event, and pushes the home route;
it does not touch the one-shot dispatched flag nor lastAuthCheck.  A
401 and other failures set distinct inline messages. -/
def handleLogin (s : AuthState) (username password : String)
    (resp : LoginResponse) : LoginResult :=
  if username = "" ∨ password = "" then
    { state := s, errorMsg := some ("Username and password are required."),
      routedTo := none }
  else
    match resp with
    | LoginResponse.ok tok =>
      { state := { s with token := some tok, isAuthenticated := some ("true"),
                          username := some username,
                          loginEvents := s.loginEvents + 1,
                          networkCalls := s.networkCalls + 1 },
        errorMsg := none, routedTo := some ("/") }
    | LoginResponse.notOk status detail =>
      { state := { s with networkCalls := s.networkCalls + 1 },
        errorMsg := some (if status = 401 then "Invalid username or password."
                          else jsStrOr detail ("Login failed. Please try again.")),
        routedTo := none }
    | LoginResponse.networkError =>
      { state := { s with networkCalls := s.networkCalls + 1 },
        errorMsg := some ("Network error. Please check your connection and try again."),
        routedTo := none }

/-- Result of mounting the home page: the state after its auth check
and whether it routed to the login page. -/
structure HomeResult where
  state : AuthState
  routedToLogin : Bool
deriving DecidableEq

/-- The home page auth effect: when the synchronous check passes it
dispatches a login event to update the navbar, else it routes to the
login page. -/
def homePageCheckAuth (s : AuthState) : HomeResult :=
  if isAuthenticatedSync s then
    { state := { s with loginEvents := s.loginEvents + 1 }, routedToLogin := false }
  else
    { state := s, routedToLogin := true }

/-! ## The upload load listener -/

/-- The body of a completed upload response: a parsed JSON object with
its optional detail and filename fields, or text that JSON.parse
rejects. -/
inductive UploadBody where
  | jsonBody (detail : Option String) (filename : Option String)
  | notJson
deriving DecidableEq

/-- What the load listener of handleSubmit does with a completed
response: show a success message, show an error message, or let an
exception escape the listener. -/
inductive UploadLoadResult where
  | success (message : String)
  | failure (errorMsg : String)
  | uncaughtException
deriving DecidableEq

/-- The load listener of handleSubmit.  A 2xx status parses the body
outside any try block, so an unparseable body throws out of the
listener; a parseable one shows the success message built from the
filename field.  Any other status parses inside a try block, falling
back to the generic message, preferring a truthy detail field. -/
def handleUploadLoad (status : Nat) (body : UploadBody) : UploadLoadResult :=
  if 200 ≤ status ∧ status < 300 then
    match body with
    | UploadBody.jsonBody _ filename =>
      UploadLoadResult.success ("File uploaded successfully: " ++
        (match filename with | some f => f | none => "undefined"))
    | UploadBody.notJson => UploadLoadResult.uncaughtException
  else
    match body with
    | UploadBody.jsonBody detail _ =>
      UploadLoadResult.failure (jsStrOr detail ("Upload failed"))
    | UploadBody.notJson => UploadLoadResult.failure ("Upload failed")

/-! ## General helper lemmas -/

theorem not_mem_filter_ne_self (l : List String) (f : String) :
    f ∉ l.filter (fun g => g != f) := by
  intro hx
  have := (List.mem_filter.mp hx).2
  simp at this

theorem getToken_some {s : AuthState} {tk : String} (h : s.token = some tk)
    (hk : tk ≠ "") : getToken s = some tk := by
  unfold getToken
  rw [h]
  show (if tk = "" then none else some tk) = some tk
  rw [if_neg hk]

/-- The cached branch of checkAuthStatus: a present token, a stored
authenticated flag and a verification newer than sixty seconds yield
true without any state change or request. -/
theorem checkAuthStatus_cached (s : AuthState) (now : Nat) (r : NetResponse)
    (tk : String) (ht : getToken s = some tk)
    (ha : s.isAuthenticated = some ("true"))
    (hc : now - s.lastAuthCheck < 60000) :
    checkAuthStatus s now r = (true, s) := by
  unfold checkAuthStatus
  rw [ht, if_pos ha, if_pos hc]

theorem revokeDrop_audioFiles (s : AudioPageState) (f : String) :
    (revokeDrop s f).audioFiles = s.audioFiles := by
  unfold revokeDrop
  cases mapGet s.audioSources f <;> rfl

theorem mapGet_revokeDrop_self (s : AudioPageState) (f : String) :
    mapGet (revokeDrop s f).audioSources f = none := by
  unfold revokeDrop
  cases hm : mapGet s.audioSources f with
  | none => exact hm
  | some old => exact mapGet_mapDel_self _ _

theorem revokeDrop_revoked (s : AudioPageState) (f : String) (u : Nat)
    (h : mapGet s.audioSources f = some u) :
    (revokeDrop s f).revokedUrls = u :: s.revokedUrls := by
  unfold revokeDrop
  rw [h]

/-! ## Claim C8 -/

/-- Claim C8: a call of fetchAudioSource for a fileName already in the
pending set returns absent and issues no request, yet its finally
block still removes the fileName from the pending set, so the
in-flight marker installed by the first, still outstanding fetch is
gone once the rejected duplicate call completes. -/
theorem c8_rejected_call_clears_marker (s : AudioPageState) (f : String)
    (o : FetchOutcome) (h : f ∈ s.pendingFetches) :
    (fetchAudioSource s f o).1 = none ∧
    f ∉ (fetchAudioSource s f o).2.pendingFetches ∧
    (fetchAudioSource s f o).2.streamRequests = s.streamRequests := by
  unfold fetchAudioSource
  rw [if_pos h]
  exact ⟨rfl, not_mem_filter_ne_self _ _, rfl⟩

def c8WitnessState : AudioPageState :=
  { initialAudioState with pendingFetches := ["b.mp3"] }

theorem c8_rejected_call_clears_marker_witness :
    ("b.mp3" ∈ c8WitnessState.pendingFetches) ∧
    (fetchAudioSource c8WitnessState ("b.mp3") FetchOutcome.abortTimeout).1 = none ∧
    "b.mp3" ∉ (fetchAudioSource c8WitnessState ("b.mp3") FetchOutcome.abortTimeout).2.pendingFetches ∧
    (fetchAudioSource c8WitnessState ("b.mp3") FetchOutcome.abortTimeout).2.streamRequests = [] := by
  have h := c8_rejected_call_clears_marker c8WitnessState ("b.mp3")
    FetchOutcome.abortTimeout (by decide)
  exact ⟨by decide, h.1, h.2.1, h.2.2⟩

/-! ## Claim C1 -/

def c1StartState : AudioPageState :=
  { initialAudioState with pendingFetches := ["a.mp3"] }

/-- Claim C1, evaluated at the failing input: with the original fetch
of a.mp3 still outstanding (its marker in the pending set), the first
further call is rejected with no request but erases the marker, and
the very next further call then passes the guard and issues a
duplicate stream request for a.mp3, against the claim that every
further call while the first is outstanding is rejected. -/
theorem c1_duplicate_fetch_requests_second_call :
    (fetchAudioSource c1StartState ("a.mp3") FetchOutcome.success).1 = none ∧
    (fetchAudioSource c1StartState ("a.mp3") FetchOutcome.success).2.streamRequests = [] ∧
    "a.mp3" ∉ (fetchAudioSource c1StartState ("a.mp3") FetchOutcome.success).2.pendingFetches ∧
    (fetchAudioSource
      (fetchAudioSource c1StartState ("a.mp3") FetchOutcome.success).2
      ("a.mp3") FetchOutcome.success).2.streamRequests = ["a.mp3"] := by
  decide

/-! ## Claim C9 -/

/-- Claim C9: every failing run of fetchAudioFiles (ok response with a
malformed shape, non-ok response, or thrown network error) records the
error message and replaces the audio list wholesale with the
hard-coded five sample files, and the non-ok case additionally routes
the user to the login page. -/
theorem c9_list_failure_fallback (s : AudioPageState) (statusText msg : String) :
    ((fetchAudioFiles s ListOutcome.okNoFilesArray).audioFiles = fallbackFiles ∧
     (fetchAudioFiles s ListOutcome.okNoFilesArray).error =
       some ("Server response is not in the expected format") ∧
     (fetchAudioFiles s ListOutcome.okNoFilesArray).routedTo = s.routedTo) ∧
    ((fetchAudioFiles s (ListOutcome.notOk statusText)).audioFiles = fallbackFiles ∧
     (fetchAudioFiles s (ListOutcome.notOk statusText)).error =
       some ("Error fetching audio files: " ++ statusText) ∧
     (fetchAudioFiles s (ListOutcome.notOk statusText)).routedTo = some ("/login")) ∧
    ((fetchAudioFiles s (ListOutcome.networkError msg)).audioFiles = fallbackFiles ∧
     (fetchAudioFiles s (ListOutcome.networkError msg)).error = some msg ∧
     (fetchAudioFiles s (ListOutcome.networkError msg)).routedTo = s.routedTo) :=
  ⟨⟨rfl, rfl, rfl⟩, ⟨rfl, rfl, rfl⟩, ⟨rfl, rfl, rfl⟩⟩

/-! ## Claim C7 -/

/-- Claim C7 counterexample: a completed 2xx upload response whose
body is not parseable JSON makes the load listener throw out of the
handler (JSON.parse runs outside any try block on the success path)
instead of falling back to a message. -/
theorem c7_ok_unparseable_throws :
    handleUploadLoad 200 UploadBody.notJson = UploadLoadResult.uncaughtException := by
  decide

/-- Claim C7 amended: a completed non-2xx response with an unparseable
body makes the listener fall back to the generic message with nothing
escaping, while a completed 2xx response with an unparseable body
makes the parse error escape the listener uncaught. -/
theorem c7_upload_load_outcomes (status : Nat) :
    (¬ (200 ≤ status ∧ status < 300) →
      handleUploadLoad status UploadBody.notJson =
        UploadLoadResult.failure ("Upload failed")) ∧
    ((200 ≤ status ∧ status < 300) →
      handleUploadLoad status UploadBody.notJson =
        UploadLoadResult.uncaughtException) := by
  constructor
  · intro h
    unfold handleUploadLoad
    rw [if_neg h]
  · intro h
    unfold handleUploadLoad
    rw [if_pos h]

theorem c7_upload_load_outcomes_witness :
    (¬ (200 ≤ 500 ∧ 500 < 300)) ∧
    handleUploadLoad 500 UploadBody.notJson = UploadLoadResult.failure ("Upload failed") ∧
    (200 ≤ 204 ∧ 204 < 300) ∧
    handleUploadLoad 204 UploadBody.notJson = UploadLoadResult.uncaughtException := by
  exact ⟨by decide, (c7_upload_load_outcomes 500).1 (by decide), by decide,
    (c7_upload_load_outcomes 204).2 (by decide)⟩

/-! ## Claim C6 -/

def c6Counterexample : AuthState :=
  { initialAuthState with isAuthenticated := some ("true"),
                          username := some ("alice"),
                          authDispatchedEvent := some ("true") }

/-- Claim C6 counterexample: with no token stored, checkAuthStatus
returns false and clears the authenticated flag and the username, but
the one-shot event-dispatched flag survives, against the claim that
all three non-token session fields are cleared. -/
theorem c6_dispatch_flag_not_cleared :
    (checkAuthStatus c6Counterexample 0 NetResponse.networkError).1 = false ∧
    (checkAuthStatus c6Counterexample 0 NetResponse.networkError).2.isAuthenticated = none ∧
    (checkAuthStatus c6Counterexample 0 NetResponse.networkError).2.username = none ∧
    (checkAuthStatus c6Counterexample 0 NetResponse.networkError).2.authDispatchedEvent =
      some ("true") := by
  decide

/-- Claim C6 amended: with no token present, checkAuthStatus returns
false at once with no network request, clearing the stored
authenticated flag and username as a side effect; the one-shot
event-dispatched flag and every other field are left unchanged. -/
theorem c6_no_token_fast_false (s : AuthState) (now : Nat) (r : NetResponse)
    (h : getToken s = none) :
    checkAuthStatus s now r =
      (false, { s with isAuthenticated := none, username := none }) := by
  unfold checkAuthStatus
  rw [h]

def c6WitnessState : AuthState :=
  { initialAuthState with username := some ("bob") }

theorem c6_no_token_fast_false_witness :
    getToken c6WitnessState = none ∧
    checkAuthStatus c6WitnessState 5 NetResponse.networkError =
      (false, { c6WitnessState with isAuthenticated := none, username := none }) :=
  ⟨rfl, c6_no_token_fast_false c6WitnessState 5 NetResponse.networkError rfl⟩

/-! ## Claim C5 -/

def c5Counterexample : AuthState :=
  { initialAuthState with token := some ("tok"), isAuthenticated := some ("true"),
                          userCache := some { username := some ("alice") } }

/-- Claim C5 counterexample: a getCurrentUser call that reaches the
current-user endpoint (forced refresh, auth cache fresh) and hits a
transport error returns absent but leaves the user cache populated,
against the claim that every failure other than 401 clears it. -/
theorem c5_network_error_keeps_cache :
    (getCurrentUser c5Counterexample 50000 true NetResponse.networkError
      NetResponse.networkError).1 = none ∧
    (getCurrentUser c5Counterexample 50000 true NetResponse.networkError
      NetResponse.networkError).2.userCache = some { username := some ("alice") } := by
  decide

/-- Claim C5 amended: for every getCurrentUser call that reaches the
current-user endpoint, an ok response refreshes the user cache and
returns the record; a 401 clears the cache and performs a full logout
(token store cleared, logout event dispatched) and returns absent; any
other non-ok response clears the cache and returns absent; a transport
or parse error is caught and returns absent leaving the user cache
unchanged. -/
theorem c5_getCurrentUser_outcomes (s : AuthState) (now : Nat) (fr : Bool)
    (authResp : NetResponse) (tk : String) (s1 : AuthState)
    (ht : getToken s = some tk)
    (hca : checkAuthStatus s now authResp = (true, s1))
    (hfresh : ¬ (fr = false ∧ s1.userCache.isSome = true ∧
                 now - s1.lastUserFetch < 300000)) :
    (∀ ud, getCurrentUser s now fr authResp (NetResponse.ok ud) =
      (some ud, { s1 with networkCalls := s1.networkCalls + 1,
                          userCache := some ud, lastUserFetch := now })) ∧
    (∀ status bodyText, status ≠ 401 →
      getCurrentUser s now fr authResp (NetResponse.notOk status bodyText) =
        (none, { s1 with networkCalls := s1.networkCalls + 1, userCache := none })) ∧
    (∀ bodyText, getCurrentUser s now fr authResp (NetResponse.notOk 401 bodyText) =
      (none, logout { s1 with networkCalls := s1.networkCalls + 1, userCache := none })) ∧
    (getCurrentUser s now fr authResp NetResponse.networkError =
      (none, { s1 with networkCalls := s1.networkCalls + 1 })) ∧
    (getCurrentUser s now fr authResp NetResponse.okBadJson =
      (none, { s1 with networkCalls := s1.networkCalls + 1 })) := by
  refine ⟨?_, ?_, ?_, ?_, ?_⟩
  · intro ud
    simp only [getCurrentUser, ht, hca]
    rw [if_neg hfresh]
  · intro status bodyText hs
    simp only [getCurrentUser, ht, hca]
    rw [if_neg hfresh, if_neg hs]
  · intro bodyText
    simp only [getCurrentUser, ht, hca]
    rw [if_neg hfresh]
    simp
  · simp only [getCurrentUser, ht, hca]
    rw [if_neg hfresh]
  · simp only [getCurrentUser, ht, hca]
    rw [if_neg hfresh]

def c5WitnessState : AuthState :=
  { initialAuthState with token := some ("tok"), isAuthenticated := some ("true") }

theorem c5_getCurrentUser_outcomes_witness :
    getCurrentUser c5WitnessState 1000 false NetResponse.networkError
        (NetResponse.ok { username := some ("alice") }) =
      (some { username := some ("alice") },
       { c5WitnessState with networkCalls := 1,
                             userCache := some { username := some ("alice") },
                             lastUserFetch := 1000 }) := by
  have h := c5_getCurrentUser_outcomes c5WitnessState 1000 false NetResponse.networkError
    ("tok") c5WitnessState (by decide) (by decide) (by decide)
  exact h.1 { username := some ("alice") }

/-! ## Claim C3 -/

/-- Claim C3 counterexample: after a successful login the login event
has already been dispatched once by handleLogin, and the home page the
user is routed to dispatches it again on its auth check, so the event
is observed twice in that session, not exactly once. -/
theorem c3_login_event_twice :
    (homePageCheckAuth
      (handleLogin initialAuthState ("alice") ("pw") (LoginResponse.ok ("tok"))).state).state.loginEvents = 2 ∧
    (homePageCheckAuth
      (handleLogin initialAuthState ("alice") ("pw") (LoginResponse.ok ("tok"))).state).routedToLogin = false := by
  decide

/-- Claim C3 amended: a login with valid credentials populates the
session fields (token, authenticated flag, username), dispatches the
login event and routes home; the event is observed at least once but
not exactly once, because handleLogin leaves the one-shot dispatched
flag unset and both the home page mount and the first background
verification dispatch it again; and after a verification returns a
true verified result at time t, every checkAuthStatus within sixty
seconds of t returns true with no state change and hence zero network
calls. -/
theorem c3_login_session_and_cached_check (s : AuthState) (u p tk : String)
    (ud : User) (t now : Nat) (r : NetResponse)
    (hu : u ≠ "") (hp : p ≠ "") (htk : tk ≠ "") (hw : now - t < 60000) :
    (handleLogin s u p (LoginResponse.ok tk)).errorMsg = none ∧
    (handleLogin s u p (LoginResponse.ok tk)).routedTo = some ("/") ∧
    (handleLogin s u p (LoginResponse.ok tk)).state.token = some tk ∧
    (handleLogin s u p (LoginResponse.ok tk)).state.isAuthenticated = some ("true") ∧
    (handleLogin s u p (LoginResponse.ok tk)).state.username = some u ∧
    (handleLogin s u p (LoginResponse.ok tk)).state.loginEvents = s.loginEvents + 1 ∧
    (validateTokenAsync (handleLogin s u p (LoginResponse.ok tk)).state t
      (NetResponse.ok ud)).1 = true ∧
    checkAuthStatus
      (validateTokenAsync (handleLogin s u p (LoginResponse.ok tk)).state t
        (NetResponse.ok ud)).2 now r =
      (true,
       (validateTokenAsync (handleLogin s u p (LoginResponse.ok tk)).state t
         (NetResponse.ok ud)).2) := by
  have hne : ¬ (u = "" ∨ p = "") := by
    rintro (h1 | h1)
    · exact hu h1
    · exact hp h1
  have hL : handleLogin s u p (LoginResponse.ok tk) =
      { state := { s with token := some tk, isAuthenticated := some ("true"),
                          username := some u, loginEvents := s.loginEvents + 1,
                          networkCalls := s.networkCalls + 1 },
        errorMsg := none, routedTo := some ("/") } := by
    unfold handleLogin
    rw [if_neg hne]
  rw [hL]
  refine ⟨rfl, rfl, rfl, rfl, rfl, rfl, rfl, ?_⟩
  exact checkAuthStatus_cached _ now r tk (getToken_some rfl htk) rfl hw

theorem c3_login_session_and_cached_check_witness :
    ("alice" ≠ "") ∧
    (checkAuthStatus
      (validateTokenAsync
        (handleLogin initialAuthState ("alice") ("pw") (LoginResponse.ok ("tok"))).state
        100 (NetResponse.ok { username := none })).2
      200 NetResponse.networkError).1 = true := by
  have h := c3_login_session_and_cached_check initialAuthState ("alice") ("pw") ("tok")
    { username := none } 100 200 NetResponse.networkError
    (by decide) (by decide) (by decide) (by decide)
  refine ⟨by decide, ?_⟩
  rw [h.2.2.2.2.2.2.2]

/-! ## Claim C4 -/

/-- The fields of the audio page state that a failed delete leaves
untouched. -/
def deleteUnchanged (s t : AudioPageState) : Prop :=
  t.audioFiles = s.audioFiles ∧ t.audioSources = s.audioSources ∧
  t.expandedTrack = s.expandedTrack ∧ t.revokedUrls = s.revokedUrls ∧
  t.pendingFetches = s.pendingFetches

/-- Claim C4: a delete receiving a success response removes the
descriptor from the list, revokes and drops any associated handle,
collapses the expanded track exactly when it was the deleted file, and
surfaces a success notice; while a failing delete (non-ok status,
transport error, or a body carrying a truthy error field) surfaces an
error and leaves the list, the handle map, the expanded track, the
revocations and the pending set unchanged. -/
theorem c4_delete_success_and_failure (s : AudioPageState) (f : String) :
    (∀ err, jsTruthyStr err = false →
      ((∀ file ∈ (handleDelete s f (DeleteOutcome.ok err)).audioFiles,
         file.fileName ≠ f) ∧
       mapGet (handleDelete s f (DeleteOutcome.ok err)).audioSources f = none ∧
       (∀ u, mapGet s.audioSources f = some u →
         u ∈ (handleDelete s f (DeleteOutcome.ok err)).revokedUrls) ∧
       (expandedMatches s f = true →
         (handleDelete s f (DeleteOutcome.ok err)).expandedTrack = none) ∧
       (expandedMatches s f = false →
         (handleDelete s f (DeleteOutcome.ok err)).expandedTrack = s.expandedTrack) ∧
       (handleDelete s f (DeleteOutcome.ok err)).alerts =
         ("Successfully deleted " ++ actualFileName f) :: s.alerts)) ∧
    (∀ m, m ≠ "" →
      deleteUnchanged s (handleDelete s f (DeleteOutcome.ok (some m))) ∧
      (handleDelete s f (DeleteOutcome.ok (some m))).alerts =
        ("Failed to delete audio: " ++ m) :: s.alerts) ∧
    (∀ status statusText,
      deleteUnchanged s (handleDelete s f (DeleteOutcome.notOk status statusText)) ∧
      (handleDelete s f (DeleteOutcome.notOk status statusText)).alerts =
        ("Failed to delete audio: Error deleting audio: " ++ toString status ++
         " " ++ statusText) :: s.alerts) ∧
    (∀ msg,
      deleteUnchanged s (handleDelete s f (DeleteOutcome.networkError msg)) ∧
      (handleDelete s f (DeleteOutcome.networkError msg)).alerts =
        ("Failed to delete audio: " ++ msg) :: s.alerts) := by
  refine ⟨?_, ?_, ?_, ?_⟩
  · intro err herr
    have hred : handleDelete s f (DeleteOutcome.ok err) = deleteSuccessState s f := by
      simp [handleDelete, herr]
    rw [hred]
    refine ⟨?_, ?_, ?_, ?_, ?_, rfl⟩
    · intro file hf
      have hlist : (deleteSuccessState s f).audioFiles =
          s.audioFiles.filter (fun file => file.fileName != f) := by
        show (revokeDrop
          { s with audioFiles := s.audioFiles.filter (fun file => file.fileName != f) }
          f).audioFiles = _
        rw [revokeDrop_audioFiles]
      rw [hlist] at hf
      have := (List.mem_filter.mp hf).2
      simpa using this
    · exact mapGet_revokeDrop_self
        { s with audioFiles := s.audioFiles.filter (fun file => file.fileName != f) } f
    · intro u hu
      show u ∈ (revokeDrop
        { s with audioFiles := s.audioFiles.filter (fun file => file.fileName != f) }
        f).revokedUrls
      rw [revokeDrop_revoked
        { s with audioFiles := s.audioFiles.filter (fun file => file.fileName != f) }
        f u hu]
      exact List.mem_cons_self _ _
    · intro hexp
      show (if expandedMatches s f then none else s.expandedTrack) = none
      rw [if_pos hexp]
    · intro hexp
      show (if expandedMatches s f then none else s.expandedTrack) = s.expandedTrack
      rw [if_neg]
      rw [hexp]
      exact Bool.false_ne_true
  · intro m hm
    have ht : jsTruthyStr (some m) = true := by simp [jsTruthyStr, hm]
    have hred : handleDelete s f (DeleteOutcome.ok (some m)) =
        { s with alerts := ("Failed to delete audio: " ++ jsStrOr (some m) "") :: s.alerts,
                 loading := false } := by
      simp only [handleDelete, ht, if_true]
    rw [hred]
    refine ⟨⟨rfl, rfl, rfl, rfl, rfl⟩, ?_⟩
    have hj : jsStrOr (some m) "" = m := by simp [jsStrOr, hm]
    rw [hj]
  · intro status statusText
    exact ⟨⟨rfl, rfl, rfl, rfl, rfl⟩, rfl⟩
  · intro msg
    exact ⟨⟨rfl, rfl, rfl, rfl, rfl⟩, rfl⟩

def c4WitnessState : AudioPageState :=
  { initialAudioState with
      audioFiles := [ { id := 1, title := "a", description := "", artist := "x",
                        audio_category := "", duration := "1:00",
                        fileName := "a.mp3", filePath := "" } ],
      audioSources := [("a.mp3", 0)], createdUrls := [("a.mp3", 0)], nextUrl := 1,
      expandedTrack := some 1 }

theorem c4_delete_success_and_failure_witness :
    jsTruthyStr none = false ∧
    mapGet (handleDelete c4WitnessState ("a.mp3") (DeleteOutcome.ok none)).audioSources
      ("a.mp3") = none ∧
    (handleDelete c4WitnessState ("a.mp3") (DeleteOutcome.ok none)).expandedTrack = none ∧
    0 ∈ (handleDelete c4WitnessState ("a.mp3") (DeleteOutcome.ok none)).revokedUrls := by
  have h := (c4_delete_success_and_failure c4WitnessState ("a.mp3")).1 none rfl
  exact ⟨rfl, h.2.1, h.2.2.2.1 (by decide), h.2.2.1 0 (by decide)⟩

/-! ## Claim C2 -/

/-- Claim C2: from any state satisfying the handle invariant, after
any sequence of fetch, playback-error retry, delete and download
operations the handle map holds at most one live object URL per
fileName; and a fetch that succeeds while a previous handle exists for
the fileName revokes that handle as it installs and maps the new one. -/
theorem c2_at_most_one_live_handle (s : AudioPageState) (ops : List AudioOp)
    (f : String) (h : HandleInv s) :
    (liveUrlsFor (runOps s ops) f).length ≤ 1 ∧
    (∀ u, mapGet s.audioSources f = some u → f ∉ s.pendingFetches →
      u ∈ (fetchAudioSource s f FetchOutcome.success).2.revokedUrls ∧
      mapGet (fetchAudioSource s f FetchOutcome.success).2.audioSources f =
        some s.nextUrl) := by
  constructor
  · exact atMostOne_of_inv _ f (inv_runOps s ops h)
  · intro u hu hnp
    have hred : fetchAudioSource s f FetchOutcome.success =
        ((installUrl (revokeCurrent (pendingAdd s f) f) f).1,
         fetchCleanup (installUrl (revokeCurrent (pendingAdd s f) f) f).2 f) := by
      unfold fetchAudioSource
      rw [if_neg hnp]
    rw [hred]
    have hrc : revokeCurrent (pendingAdd s f) f =
        { pendingAdd s f with revokedUrls := u :: (pendingAdd s f).revokedUrls } := by
      unfold revokeCurrent
      rw [show mapGet (pendingAdd s f).audioSources f = some u from hu]
    constructor
    · show u ∈ (installUrl (revokeCurrent (pendingAdd s f) f) f).2.revokedUrls
      rw [hrc]
      exact List.mem_cons_self _ _
    · show mapGet (installUrl (revokeCurrent (pendingAdd s f) f) f).2.audioSources f =
        some s.nextUrl
      rw [hrc]
      exact mapGet_mapSet_self _ _ _

def c2WitnessState : AudioPageState :=
  { initialAudioState with audioSources := [("a.mp3", 0)],
                           createdUrls := [("a.mp3", 0)], nextUrl := 1 }

theorem inv_c2WitnessState : HandleInv c2WitnessState := by
  refine ⟨?_, ?_, ?_, ?_, ?_⟩
  · intro q hq
    have hq2 : q = ("a.mp3", 0) := by simpa [c2WitnessState, initialAudioState] using hq
    rw [hq2]
    decide
  · intro v hv
    exact absurd hv (List.not_mem_nil v)
  · decide
  · intro q hq
    have hq2 : q = ("a.mp3", 0) := by simpa [c2WitnessState, initialAudioState] using hq
    rw [hq2]
    decide
  · intro q hq hr
    have hq2 : q = ("a.mp3", 0) := by simpa [c2WitnessState, initialAudioState] using hq
    rw [hq2]
    decide

theorem c2_at_most_one_live_handle_witness :
    HandleInv c2WitnessState ∧
    (liveUrlsFor (runOps c2WitnessState
      [AudioOp.playError ("a.mp3") true FetchOutcome.success]) ("a.mp3")).length ≤ 1 ∧
    0 ∈ (fetchAudioSource c2WitnessState ("a.mp3") FetchOutcome.success).2.revokedUrls ∧
    mapGet (fetchAudioSource c2WitnessState ("a.mp3") FetchOutcome.success).2.audioSources
      ("a.mp3") = some 1 := by
  have h := c2_at_most_one_live_handle c2WitnessState
    [AudioOp.playError ("a.mp3") true FetchOutcome.success] ("a.mp3") inv_c2WitnessState
  have h2 := h.2 0 (by decide) (by decide)
  exact ⟨inv_c2WitnessState, h.1, h2.1, h2.2⟩

/-! ## Claim C10 -/

/-- A URL number foreign to all fetch bookkeeping: below the counter,
never created by fetchAudioSource, never revoked. -/
def UrlFree (u : Nat) (s : AudioPageState) : Prop :=
  u < s.nextUrl ∧ (∀ p ∈ s.createdUrls, p.2 ≠ u) ∧ u ∉ s.revokedUrls

theorem urlFree_of_same (u : Nat) {s t : AudioPageState} (h : UrlFree u s)
    (h1 : t.createdUrls = s.createdUrls) (h2 : t.revokedUrls = s.revokedUrls)
    (h3 : s.nextUrl ≤ t.nextUrl) : UrlFree u t := by
  refine ⟨Nat.lt_of_lt_of_le h.1 h3, ?_, ?_⟩
  · rw [h1]; exact h.2.1
  · rw [h2]; exact h.2.2

theorem urlFree_revokeCurrent (u : Nat) (s : AudioPageState) (f : String)
    (hinv : HandleInv s) (h : UrlFree u s) : UrlFree u (revokeCurrent s f) := by
  unfold revokeCurrent
  cases hm : mapGet s.audioSources f with
  | none => exact h
  | some old =>
    have hmem : (f, old) ∈ s.createdUrls := hinv.sources_created _ (mapGet_eq_some_mem hm)
    refine ⟨h.1, h.2.1, ?_⟩
    intro hx
    rcases List.mem_cons.mp hx with h1 | h1
    · exact h.2.1 _ hmem h1.symm
    · exact h.2.2 h1

theorem urlFree_revokeDrop (u : Nat) (s : AudioPageState) (f : String)
    (hinv : HandleInv s) (h : UrlFree u s) : UrlFree u (revokeDrop s f) := by
  unfold revokeDrop
  cases hm : mapGet s.audioSources f with
  | none => exact h
  | some old =>
    have hmem : (f, old) ∈ s.createdUrls := hinv.sources_created _ (mapGet_eq_some_mem hm)
    refine ⟨h.1, h.2.1, ?_⟩
    intro hx
    rcases List.mem_cons.mp hx with h1 | h1
    · exact h.2.1 _ hmem h1.symm
    · exact h.2.2 h1

theorem urlFree_installUrl (u : Nat) (s : AudioPageState) (f : String)
    (h : UrlFree u s) : UrlFree u (installUrl s f).2 := by
  refine ⟨Nat.lt_succ_of_lt h.1, ?_, h.2.2⟩
  intro q hq
  rcases List.mem_cons.mp hq with h1 | h1
  · rw [h1]
    exact fun he => Nat.lt_irrefl u (he ▸ h.1)
  · exact h.2.1 q h1

theorem urlFree_fetchAudioSource (u : Nat) (s : AudioPageState) (f : String)
    (o : FetchOutcome) (hinv : HandleInv s) (h : UrlFree u s) :
    UrlFree u (fetchAudioSource s f o).2 := by
  unfold fetchAudioSource
  by_cases hg : f ∈ s.pendingFetches
  · rw [if_pos hg]
    exact urlFree_of_same u h rfl rfl (Nat.le_refl _)
  · rw [if_neg hg]
    cases o with
    | success =>
      exact urlFree_of_same u
        (urlFree_installUrl u _ f
          (urlFree_revokeCurrent u _ f (inv_pendingAdd s f hinv)
            (urlFree_of_same u h rfl rfl (Nat.le_refl _))))
        rfl rfl (Nat.le_refl _)
    | httpError status statusText =>
      exact urlFree_of_same u h rfl rfl (Nat.le_refl _)
    | abortTimeout =>
      exact urlFree_of_same u h rfl rfl (Nat.le_refl _)
    | networkError msg =>
      exact urlFree_of_same u h rfl rfl (Nat.le_refl _)
    | blobError msg =>
      exact urlFree_of_same u
        (urlFree_revokeCurrent u _ f (inv_pendingAdd s f hinv)
          (urlFree_of_same u h rfl rfl (Nat.le_refl _)))
        rfl rfl (Nat.le_refl _)

theorem urlFree_handlePlayError (u : Nat) (s : AudioPageState) (f : String)
    (e : Bool) (r : FetchOutcome) (hinv : HandleInv s) (h : UrlFree u s) :
    UrlFree u (handlePlayError s f e r) := by
  unfold handlePlayError
  by_cases hc : ((mapGet s.audioSources f).isNone || e) = true
  · rw [if_pos hc]
    by_cases hg : f ∈ s.pendingFetches
    · rw [if_pos hg]
      exact urlFree_revokeDrop u s f hinv h
    · rw [if_neg hg]
      exact urlFree_fetchAudioSource u _ f r (inv_revokeDrop s f hinv)
        (urlFree_revokeDrop u s f hinv h)
  · rw [if_neg hc]
    exact h

theorem urlFree_handleDelete (u : Nat) (s : AudioPageState) (f : String)
    (o : DeleteOutcome) (hinv : HandleInv s) (h : UrlFree u s) :
    UrlFree u (handleDelete s f o) := by
  cases o with
  | ok err =>
    by_cases he : jsTruthyStr err = true
    · simp only [handleDelete, he, if_true]
      exact urlFree_of_same u h rfl rfl (Nat.le_refl _)
    · simp only [handleDelete, if_neg he]
      unfold deleteSuccessState
      exact urlFree_of_same u
        (urlFree_revokeDrop u
          { s with audioFiles := s.audioFiles.filter (fun file => file.fileName != f) } f
          (inv_of_same_handles hinv rfl rfl rfl rfl)
          (urlFree_of_same u h rfl rfl (Nat.le_refl _)))
        rfl rfl (Nat.le_refl _)
  | notOk status statusText => exact urlFree_of_same u h rfl rfl (Nat.le_refl _)
  | networkError msg => exact urlFree_of_same u h rfl rfl (Nat.le_refl _)

theorem urlFree_handleDownload (u : Nat) (s : AudioPageState) (f t : String)
    (o : FetchOutcome) (h : UrlFree u s) : UrlFree u (handleDownload s f t o) := by
  cases o with
  | success => exact urlFree_of_same u h rfl rfl (Nat.le_succ _)
  | httpError status statusText => exact urlFree_of_same u h rfl rfl (Nat.le_refl _)
  | abortTimeout => exact urlFree_of_same u h rfl rfl (Nat.le_refl _)
  | networkError msg => exact urlFree_of_same u h rfl rfl (Nat.le_refl _)
  | blobError msg => exact urlFree_of_same u h rfl rfl (Nat.le_refl _)

theorem urlFree_applyOp (u : Nat) (s : AudioPageState) (op : AudioOp)
    (hinv : HandleInv s) (h : UrlFree u s) : UrlFree u (applyOp s op) := by
  cases op with
  | fetch f o => exact urlFree_fetchAudioSource u s f o hinv h
  | playError f e r => exact urlFree_handlePlayError u s f e r hinv h
  | delete f o => exact urlFree_handleDelete u s f o hinv h
  | download f t o => exact urlFree_handleDownload u s f t o h

theorem urlFree_runOps (u : Nat) (s : AudioPageState) (ops : List AudioOp)
    (hinv : HandleInv s) (h : UrlFree u s) : UrlFree u (runOps s ops) := by
  induction ops generalizing s with
  | nil => exact h
  | cons op rest ih => exact ih _ (inv_applyOp s op hinv) (urlFree_applyOp u s op hinv h)

/-- Claim C10: a successful download leaves the handle map, the
pending set, the audio list and the expanded track unchanged; the
object URL it creates goes only into the one-shot download list, and
after any further sequence of page operations it is still neither a
value of the shared handle map nor ever revoked. -/
theorem c10_download_frame (s : AudioPageState) (fileName title : String)
    (ops : List AudioOp) (h : HandleInv s) :
    (handleDownload s fileName title FetchOutcome.success).audioSources = s.audioSources ∧
    (handleDownload s fileName title FetchOutcome.success).pendingFetches = s.pendingFetches ∧
    (handleDownload s fileName title FetchOutcome.success).audioFiles = s.audioFiles ∧
    (handleDownload s fileName title FetchOutcome.success).expandedTrack = s.expandedTrack ∧
    (handleDownload s fileName title FetchOutcome.success).downloadUrls =
      s.nextUrl :: s.downloadUrls ∧
    (∀ q ∈ (runOps (handleDownload s fileName title FetchOutcome.success) ops).audioSources,
      q.2 ≠ s.nextUrl) ∧
    s.nextUrl ∉ (runOps (handleDownload s fileName title FetchOutcome.success) ops).revokedUrls := by
  have hinv1 : HandleInv (handleDownload s fileName title FetchOutcome.success) :=
    inv_handleDownload s fileName title FetchOutcome.success h
  have hfree1 : UrlFree s.nextUrl (handleDownload s fileName title FetchOutcome.success) := by
    refine ⟨Nat.lt_succ_self _, ?_, ?_⟩
    · intro q hq
      exact fun he => Nat.lt_irrefl _ (he ▸ h.created_lt q hq)
    · intro hx
      exact Nat.lt_irrefl _ (h.revoked_lt _ hx)
  have hfree := urlFree_runOps s.nextUrl _ ops hinv1 hfree1
  have hinv2 := inv_runOps _ ops hinv1
  refine ⟨rfl, rfl, rfl, rfl, rfl, ?_, hfree.2.2⟩
  intro q hq
  exact hfree.2.1 q (hinv2.sources_created q hq)

theorem inv_initialAudioState : HandleInv initialAudioState := by
  refine ⟨?_, ?_, ?_, ?_, ?_⟩
  · intro q hq
    exact absurd hq (List.not_mem_nil q)
  · intro v hv
    exact absurd hv (List.not_mem_nil v)
  · exact List.nodup_nil
  · intro q hq
    exact absurd hq (List.not_mem_nil q)
  · intro q hq
    exact absurd hq (List.not_mem_nil q)

theorem c10_download_frame_witness :
    (handleDownload initialAudioState ("a.mp3") ("A") FetchOutcome.success).audioSources = [] ∧
    initialAudioState.nextUrl ∉
      (runOps (handleDownload initialAudioState ("a.mp3") ("A") FetchOutcome.success)
        [AudioOp.fetch ("a.mp3") FetchOutcome.success]).revokedUrls := by
  have h := c10_download_frame initialAudioState ("a.mp3") ("A")
    [AudioOp.fetch ("a.mp3") FetchOutcome.success] inv_initialAudioState
  exact ⟨h.1, h.2.2.2.2.2.2⟩
